import Mathlib

/-!
Verification development for the Pulso-AI multi-tenant ETL core
(`core-template`).  Python sources are shallowly embedded as Lean
definitions: dataclasses become structures, `__post_init__` validation
becomes an `Except`-returning smart constructor, database tables become
lists of row records, and the async orchestrator becomes a pure function
from an environment of port outcomes to a run outcome plus an event trace.
Monetary amounts (Python floats compared with `<`/`<=`) are embedded as
`Rat`; dates and timestamps as `Int`.
-/

set_option maxHeartbeats 1000000

/-! ### Domain enums — src/domain/value_objects/enums.py -/

/-- `CanalContacto` enum (enums.py lines 10-31). -/
inductive CanalContacto where
  | CALL
  | VOICEBOT
  | EMAIL
  | SMS
  | WHATSAPP
  | VISITA_DOMICILIO
  | CARTA
  | CALL_CENTER
  deriving DecidableEq

/-- `TipificacionHomologada` enum (enums.py lines 94-130): the canonical
outcome vocabulary. -/
inductive TipificacionHomologada where
  | CONTACTO_EFECTIVO
  | COMPROMISO_PAGO
  | PAGO_INMEDIATO
  | ACUERDO_PAGO
  | NO_CONTACTO
  | NUMERO_ERRADO
  | TELEFONO_APAGADO
  | BUZON_VOZ
  | NO_INTERESADO
  | SIN_CAPACIDAD_PAGO
  | SOLICITA_FACILIDADES
  | DISPUTA_DEUDA
  | FALLECIDO
  | CAMBIO_DATOS
  | RECLAMO_CLIENTE
  deriving DecidableEq

/-- Member lookup by attribute name on the `TipificacionHomologada` enum
(member names coincide with their string values in enums.py). -/
def TipificacionHomologada.fromName (s : String) : Option TipificacionHomologada :=
  if s = "CONTACTO_EFECTIVO" then some .CONTACTO_EFECTIVO
  else if s = "COMPROMISO_PAGO" then some .COMPROMISO_PAGO
  else if s = "PAGO_INMEDIATO" then some .PAGO_INMEDIATO
  else if s = "ACUERDO_PAGO" then some .ACUERDO_PAGO
  else if s = "NO_CONTACTO" then some .NO_CONTACTO
  else if s = "NUMERO_ERRADO" then some .NUMERO_ERRADO
  else if s = "TELEFONO_APAGADO" then some .TELEFONO_APAGADO
  else if s = "BUZON_VOZ" then some .BUZON_VOZ
  else if s = "NO_INTERESADO" then some .NO_INTERESADO
  else if s = "SIN_CAPACIDAD_PAGO" then some .SIN_CAPACIDAD_PAGO
  else if s = "SOLICITA_FACILIDADES" then some .SOLICITA_FACILIDADES
  else if s = "DISPUTA_DEUDA" then some .DISPUTA_DEUDA
  else if s = "FALLECIDO" then some .FALLECIDO
  else if s = "CAMBIO_DATOS" then some .CAMBIO_DATOS
  else if s = "RECLAMO_CLIENTE" then some .RECLAMO_CLIENTE
  else none

/-! ### Gestion entity — src/domain/entities/gestion.py -/

/-- Field bundle of the `Gestion` dataclass (gestion.py lines 41-55).
`fecha`/`fecha_compromiso` are timestamps embedded as `Int`;
`monto_comprometido` (a Python float compared against 0) as `Rat`. -/
structure GestionData where
  documento_cliente : String
  fecha : Int
  canal : CanalContacto
  ejecutivo : String
  tipificacion_original : String
  tipificacion_homologada : TipificacionHomologada
  es_contacto : Bool
  es_compromiso : Bool
  id : Option String := none
  observaciones : Option String := none
  monto_comprometido : Option Rat := none
  fecha_compromiso : Option Int := none
  numero_intentos : Int := 1
  duracion_minutos : Option Int := none

/-- Is an `Except` value a success? -/
def exceptOk {ε α : Type} : Except ε α → Bool
  | Except.ok _ => true
  | Except.error _ => false

/-- `Gestion.__post_init__` (gestion.py lines 57-76): assigns a fresh id when
none is given (`uuid4`, passed in here as `freshId`), then runs the
validation rules in source order, raising `ValueError` (embedded as
`Except.error`) at the first violated rule. -/
def mkGestion (freshId : String) (g0 : GestionData) : Except String GestionData :=
  let g := { g0 with id := some (g0.id.getD freshId) }
  if g.documento_cliente.trim = "" then
    Except.error "Documento cliente no puede estar vacio"
  else if g.ejecutivo.trim = "" then
    Except.error "Ejecutivo no puede estar vacio"
  else if g.numero_intentos < 1 then
    Except.error "Numero de intentos debe ser mayor a 0"
  else if g.es_compromiso && !g.es_contacto then
    Except.error "No puede haber compromiso sin contacto efectivo"
  else
    match g.monto_comprometido with
    | some m =>
      if m ≤ 0 then Except.error "Monto comprometido debe ser positivo"
      else Except.ok g
    | none => Except.ok g

/-- C1: every `Gestion` construction attempt fails when the commitment flag
is true while the contact flag is false, and when a committed amount is
present but not strictly positive; consequently every successfully
constructed `Gestion` satisfies `es_compromiso → es_contacto` and its
`monto_comprometido`, when present, is strictly positive. -/
theorem C1_gestion_construction_invariants :
    (∀ (fid : String) (g : GestionData),
        g.es_compromiso = true → g.es_contacto = false →
        exceptOk (mkGestion fid g) = false)
  ∧ (∀ (fid : String) (g : GestionData) (m : Rat),
        g.monto_comprometido = some m → m ≤ 0 →
        exceptOk (mkGestion fid g) = false)
  ∧ (∀ (fid : String) (g g2 : GestionData),
        mkGestion fid g = Except.ok g2 →
        (g2.es_compromiso = true → g2.es_contacto = true)
      ∧ (∀ m : Rat, g2.monto_comprometido = some m → 0 < m)) := by
  refine ⟨?_, ?_, ?_⟩
  · intro fid g hcomp hcont
    simp only [mkGestion]
    split
    · rfl
    · split
      · rfl
      · split
        · rfl
        · split
          · rfl
          · rename_i hrule
            exfalso
            apply hrule
            simp [hcomp, hcont]
  · intro fid g m hm hle
    simp only [mkGestion]
    split
    · rfl
    · split
      · rfl
      · split
        · rfl
        · split
          · rfl
          · split
            · rename_i m2 heq
              split
              · rfl
              · rename_i hpos
                have hmm : some m = some m2 := hm.symm.trans heq
                cases hmm
                exact absurd hle hpos
            · rename_i heq
              exact Option.noConfusion (hm.symm.trans heq)
  · intro fid g g2 hok
    simp only [mkGestion] at hok
    split at hok
    · exact absurd hok (by simp)
    · split at hok
      · exact absurd hok (by simp)
      · split at hok
        · exact absurd hok (by simp)
        · split at hok
          · exact absurd hok (by simp)
          · rename_i hrule
            have himp : ∀ (a b : Bool), ¬((a && !b) = true) → a = true → b = true := by
              decide
            split at hok
            · rename_i m heq
              split at hok
              · exact absurd hok (by simp)
              · rename_i hpos
                cases hok
                constructor
                · exact himp _ _ hrule
                · intro m2 hm2
                  have hmm : some m = some m2 := heq.symm.trans hm2
                  cases hmm
                  exact lt_of_not_le hpos
            · rename_i heq
              cases hok
              constructor
              · exact himp _ _ hrule
              · intro m2 hm2
                exact Option.noConfusion (heq.symm.trans hm2)

/-- Concrete instantiation of `C1_gestion_construction_invariants`: a gestion
with a commitment but no contact is rejected. -/
theorem C1_witness :
    exceptOk (mkGestion "id-0"
      { documento_cliente := "12345678", fecha := 0, canal := CanalContacto.CALL,
        ejecutivo := "Ana", tipificacion_original := "CONT_COMP",
        tipificacion_homologada := TipificacionHomologada.COMPROMISO_PAGO,
        es_contacto := false, es_compromiso := true }) = false :=
  C1_gestion_construction_invariants.1 "id-0"
    { documento_cliente := "12345678", fecha := 0, canal := CanalContacto.CALL,
      ejecutivo := "Ana", tipificacion_original := "CONT_COMP",
      tipificacion_homologada := TipificacionHomologada.COMPROMISO_PAGO,
      es_contacto := false, es_compromiso := true } rfl rfl

/-! ### Cliente entity — src/domain/entities/cliente.py -/

/-- Field bundle of the `Cliente` dataclass (cliente.py lines 35-41).
`saldo_actual` (a Python float compared against 0) is embedded as `Rat`. -/
structure ClienteData where
  documento : String
  nombre : String
  saldo_actual : Rat
  dias_mora : Int
  telefono : Option String := none
  email : Option String := none
  ultima_actualizacion : Option Int := none

/-- `Cliente.__post_init__` (cliente.py lines 43-52): validation rules in
source order, each raising `ValueError` on violation. -/
def mkCliente (c : ClienteData) : Except String ClienteData :=
  if c.documento.trim = "" then Except.error "Documento no puede estar vacio"
  else if c.nombre.trim = "" then Except.error "Nombre no puede estar vacio"
  else if c.saldo_actual < 0 then Except.error "Saldo actual no puede ser negativo"
  else if c.dias_mora < 0 then Except.error "Dias de mora no pueden ser negativos"
  else Except.ok c

/-- `Cliente.__eq__` (cliente.py lines 156-160): equality on the document
business key only. -/
def clienteEq (a b : ClienteData) : Bool :=
  a.documento == b.documento

/-- `Cliente.__hash__` (cliente.py lines 162-164): hash of the document
business key only. -/
def clienteHash (a : ClienteData) : UInt64 :=
  hash a.documento

/-- C9: every successfully constructed `Cliente` has a document that is
non-empty (after stripping whitespace), `saldo_actual ≥ 0` and
`dias_mora ≥ 0`; construction with a negative balance or negative days
fails; and equality/hashing are keyed solely on `documento`, so two
clientes with the same document are equal and hash alike regardless of
every other field. -/
theorem C9_cliente_invariants :
    (∀ c c2 : ClienteData, mkCliente c = Except.ok c2 →
        ¬(c2.documento.trim = "") ∧ 0 ≤ c2.saldo_actual ∧ 0 ≤ c2.dias_mora)
  ∧ (∀ c : ClienteData, c.saldo_actual < 0 ∨ c.dias_mora < 0 →
        exceptOk (mkCliente c) = false)
  ∧ (∀ a b : ClienteData, a.documento = b.documento →
        clienteEq a b = true ∧ clienteHash a = clienteHash b)
  ∧ (∀ a b : ClienteData, clienteEq a b = true → a.documento = b.documento) := by
  refine ⟨?_, ?_, ?_, ?_⟩
  · intro c c2 hok
    simp only [mkCliente] at hok
    split at hok
    · exact absurd hok (by simp)
    · split at hok
      · exact absurd hok (by simp)
      · split at hok
        · exact absurd hok (by simp)
        · split at hok
          · exact absurd hok (by simp)
          · rename_i hdoc hnom hsaldo hdias
            cases hok
            exact ⟨hdoc, le_of_not_lt hsaldo, le_of_not_lt hdias⟩
  · intro c hbad
    simp only [mkCliente]
    split
    · rfl
    · split
      · rfl
      · split
        · rfl
        · split
          · rfl
          · rename_i hsaldo hdias
            rcases hbad with h | h
            · exact absurd h hsaldo
            · exact absurd h hdias
  · intro a b h
    constructor
    · simp [clienteEq, h]
    · simp [clienteHash, h]
  · intro a b h
    simpa [clienteEq] using h

/-- Sample cliente with a negative balance. -/
def clienteNegativo : ClienteData :=
  { documento := "123", nombre := "Juan", saldo_actual := -5, dias_mora := 0 }

/-- Sample cliente with document "123". -/
def clienteJuan : ClienteData :=
  { documento := "123", nombre := "Juan", saldo_actual := 1, dias_mora := 2 }

/-- Sample cliente with document "123" and every other field different. -/
def clienteMaria : ClienteData :=
  { documento := "123", nombre := "Maria", saldo_actual := 9, dias_mora := 7 }

/-- Concrete instantiation of `C9_cliente_invariants`: a cliente with a
negative balance is rejected, and two clientes sharing a document but
differing in every other field are equal. -/
theorem C9_witness :
    exceptOk (mkCliente clienteNegativo) = false
  ∧ clienteEq clienteJuan clienteMaria = true :=
  ⟨C9_cliente_invariants.2.1 clienteNegativo (Or.inl (by decide)),
   (C9_cliente_invariants.2.2.1 clienteJuan clienteMaria rfl).1⟩

/-! ### Metrica value object — src/domain/entities/metrica.py -/

/-- `UnidadMetrica` enum (metrica.py lines 14-22). -/
inductive UnidadMetrica where
  | PORCENTAJE
  | CANTIDAD
  | HORAS
  | MINUTOS
  | PESOS
  | RATIO
  | SCORE
  deriving DecidableEq

/-- `PeriodoMetrica` enum (metrica.py lines 25-32). -/
inductive PeriodoMetrica where
  | DIARIO
  | SEMANAL
  | MENSUAL
  | TRIMESTRAL
  | ANUAL
  | TIEMPO_REAL
  deriving DecidableEq

/-- Field bundle of the frozen `Metrica` dataclass (metrica.py lines 35-66).
The Python class is declared `@dataclass(frozen=True)`; a Lean structure
value is immutable by construction, which embeds that property.  `valor`
and the thresholds (floats compared with `<=`) are embedded as `Rat`. -/
structure MetricaData where
  nombre : String
  valor : Rat
  unidad : UnidadMetrica
  periodo : PeriodoMetrica
  fecha_calculo : Int
  threshold_warning : Option Rat := none
  threshold_critical : Option Rat := none
  target_value : Option Rat := none

/-- `Metrica.__post_init__` (metrica.py lines 68-89): name must be
non-empty, percentage values lie in [0, 100], score values in [0, 1], and
when both thresholds are present the critical one must exceed the warning
one; each violation raises `ValueError`. -/
def mkMetrica (m : MetricaData) : Except String MetricaData :=
  if m.nombre.trim = "" then
    Except.error "Nombre de metrica no puede estar vacio"
  else if m.unidad = UnidadMetrica.PORCENTAJE ∧ ¬(0 ≤ m.valor ∧ m.valor ≤ 100) then
    Except.error "Valor de porcentaje debe estar entre 0 y 100"
  else if m.unidad = UnidadMetrica.SCORE ∧ ¬(0 ≤ m.valor ∧ m.valor ≤ 1) then
    Except.error "Valor de score debe estar entre 0 y 1"
  else
    match m.threshold_warning, m.threshold_critical with
    | some w, some c =>
      if c ≤ w then Except.error "Threshold critico debe ser mayor al de warning"
      else Except.ok m
    | _, _ => Except.ok m

/-- C10: every successfully constructed `Metrica` satisfies the
unit-dependent bounds — percentage values lie in [0, 100], score values in
[0, 1] — and when both thresholds are present the critical threshold is
strictly greater than the warning one; construction fails (`ValueError`)
whenever one of these conditions is violated.  (Immutability is embedded
by the structure itself: `Metrica` is `@dataclass(frozen=True)`.) -/
theorem C10_metrica_invariants :
    (∀ m m2 : MetricaData, mkMetrica m = Except.ok m2 →
        (m2.unidad = UnidadMetrica.PORCENTAJE → 0 ≤ m2.valor ∧ m2.valor ≤ 100)
      ∧ (m2.unidad = UnidadMetrica.SCORE → 0 ≤ m2.valor ∧ m2.valor ≤ 1)
      ∧ (∀ w c : Rat, m2.threshold_warning = some w →
            m2.threshold_critical = some c → w < c))
  ∧ (∀ m : MetricaData,
        ((m.unidad = UnidadMetrica.PORCENTAJE ∧ ¬(0 ≤ m.valor ∧ m.valor ≤ 100))
        ∨ (m.unidad = UnidadMetrica.SCORE ∧ ¬(0 ≤ m.valor ∧ m.valor ≤ 1))
        ∨ (∃ w c : Rat, m.threshold_warning = some w ∧ m.threshold_critical = some c ∧ c ≤ w)) →
        exceptOk (mkMetrica m) = false) := by
  constructor
  · intro m m2 hok
    simp only [mkMetrica] at hok
    split at hok
    · exact absurd hok (by simp)
    · split at hok
      · exact absurd hok (by simp)
      · split at hok
        · exact absurd hok (by simp)
        · rename_i hnom hpct hscore
          split at hok
          · rename_i w c hw hc
            split at hok
            · exact absurd hok (by simp)
            · rename_i hcw
              cases hok
              refine ⟨?_, ?_, ?_⟩
              · intro hu
                by_contra hbounds
                exact hpct ⟨hu, hbounds⟩
              · intro hu
                by_contra hbounds
                exact hscore ⟨hu, hbounds⟩
              · intro w2 c2 hw2 hc2
                have hww : some w = some w2 := hw.symm.trans hw2
                have hcc : some c = some c2 := hc.symm.trans hc2
                cases hww; cases hcc
                exact lt_of_not_le hcw
          · rename_i hnotboth
            cases hok
            refine ⟨?_, ?_, ?_⟩
            · intro hu
              by_contra hbounds
              exact hpct ⟨hu, hbounds⟩
            · intro hu
              by_contra hbounds
              exact hscore ⟨hu, hbounds⟩
            · intro w2 c2 hw2 hc2
              exact (hnotboth w2 c2 hw2 hc2).elim
  · intro m hbad
    simp only [mkMetrica]
    split
    · rfl
    · split
      · rfl
      · split
        · rfl
        · rename_i hnom hpct hscore
          rcases hbad with h | h | h
          · exact absurd h hpct
          · exact absurd h hscore
          · obtain ⟨w, c, hw, hc, hcw⟩ := h
            split
            · rename_i w2 c2 hw2 hc2
              split
              · rfl
              · rename_i hlt
                have hww : some w = some w2 := hw.symm.trans hw2
                have hcc : some c = some c2 := hc.symm.trans hc2
                cases hww; cases hcc
                exact absurd hcw hlt
            · rename_i hnotboth
              exact (hnotboth w c hw hc).elim

/-- Sample percentage metric whose value is out of range. -/
def metricaFueraDeRango : MetricaData :=
  { nombre := "tasa", valor := 150, unidad := UnidadMetrica.PORCENTAJE,
    periodo := PeriodoMetrica.MENSUAL, fecha_calculo := 0 }

/-- Concrete instantiation of `C10_metrica_invariants`: a percentage metric
with value 150 is rejected. -/
theorem C10_witness :
    exceptOk (mkMetrica metricaFueraDeRango) = false :=
  C10_metrica_invariants.2 metricaFueraDeRango (Or.inl ⟨rfl, by decide⟩)

/-! ### BigQuery extraction adapter —
src/infrastructure/adapters/bigquery/telefonica_adapter.py -/

/-- One raw row produced by the `extract_gestiones` SQL (telefonica_adapter.py
lines 64-108): the UNION of the CALL and VOICEBOT tables.  `es_pdp` and
`contactabilidad` are the source columns feeding the SQL `CASE`;
dates/times are embedded as `Int`. -/
structure RawGestionRow where
  fecha_gestion : Int
  hora_gestion : Int
  ejecutivo : Option String
  canal : String
  contactabilidad : String
  es_pdp : Bool
  cod_luna : Int
  deriving DecidableEq

/-- The SQL `CASE` computing the `tipificacion_homologada` column
(telefonica_adapter.py lines 72-76 and 94-98): any contactability other
than `'CONTACTO EFECTIVO'` on a non-PDP row falls to the `ELSE
'NO_CONTACTO'` branch. -/
def sqlTipificacionCase (es_pdp : Bool) (contactabilidad : String) : String :=
  if es_pdp then "COMPROMISO_PAGO"
  else if contactabilidad = "CONTACTO EFECTIVO" then "CONTACTO_EFECTIVO"
  else "NO_CONTACTO"

/-- `getattr(TipificacionHomologada, name, TipificacionHomologada.CONTACTO_EFECTIVO)`
(telefonica_adapter.py lines 129-133): enum member lookup with a silent
default of `CONTACTO_EFECTIVO` when the name is not a member. -/
def getattrTipificacion (s : String) : TipificacionHomologada :=
  (TipificacionHomologada.fromName s).getD TipificacionHomologada.CONTACTO_EFECTIVO

/-- The record built by the adapter's `Gestion(...)` call
(telefonica_adapter.py lines 120-136), with exactly the keyword set of
that call site.  Modelled from the spec: the Telefónica-variant entity
class that accepts these keywords (`gestion_id`, `hora_gestion`,
`cliente_documento`, `contactabilidad`, `duracion_segundos`, ...) is not
part of the repository snapshot — the dataclass in
src/domain/entities/gestion.py has a different field set — so the
constructed record is embedded from the call site's own fields, and
construction is embedded as total, following the spec's Activity
lifecycle ("created once per raw extraction row" with a deterministic
tenant+date+sequence identifier). -/
structure TGestion where
  gestion_id : String
  fecha_gestion : Int
  hora_gestion : Int
  cliente_documento : String
  ejecutivo : String
  canal : CanalContacto
  contactabilidad : String
  tipificacion_original : String
  tipificacion_homologada : TipificacionHomologada
  duracion_segundos : Int
  observaciones : String
  deriving DecidableEq

/-- Conversion of one raw row to a `TGestion` (telefonica_adapter.py lines
120-136): the deterministic id `f"{cod_luna}_{fecha}_{hora}"`, the
`or "SISTEMA"` fallback for a falsy executive, the CALL/VOICEBOT channel
choice, and the enum lookup with its `CONTACTO_EFECTIVO` default. -/
def convertGestionRow (row : RawGestionRow) : TGestion :=
  { gestion_id :=
      toString row.cod_luna ++ "_" ++ toString row.fecha_gestion ++ "_"
        ++ toString row.hora_gestion
    fecha_gestion := row.fecha_gestion
    hora_gestion := row.hora_gestion
    cliente_documento := toString row.cod_luna
    ejecutivo :=
      match row.ejecutivo with
      | none => "SISTEMA"
      | some s => if s = "" then "SISTEMA" else s
    canal := if row.canal = "CALL" then CanalContacto.CALL else CanalContacto.VOICEBOT
    contactabilidad := row.contactabilidad
    tipificacion_original := row.contactabilidad
    tipificacion_homologada :=
      getattrTipificacion (sqlTipificacionCase row.es_pdp row.contactabilidad)
    duracion_segundos := 0
    observaciones := "" }

/-- The `try` body around the conversion (telefonica_adapter.py lines
119-141): an exception would be caught and the record skipped.  No
exception is raised by the conversion itself (see `TGestion`). -/
def convertGestionRowE (row : RawGestionRow) : Except String TGestion :=
  Except.ok (convertGestionRow row)

/-- The per-row loop of `extract_gestiones` (telefonica_adapter.py lines
117-141): converted rows are appended, a row whose conversion raises is
logged and skipped (`continue`); the second component counts the skipped
rows. -/
def extractGestionesLoop :
    List RawGestionRow → List TGestion → Nat → List TGestion × Nat
  | [], acc, skips => (acc, skips)
  | row :: rest, acc, skips =>
    match convertGestionRowE row with
    | Except.ok g => extractGestionesLoop rest (acc ++ [g]) skips
    | Except.error _ => extractGestionesLoop rest acc (skips + 1)

/-- `TelefonicaBigQueryAdapter.extract_gestiones` restricted to its
row-conversion behaviour: list of converted gestiones plus skip count. -/
def extract_gestiones (rows : List RawGestionRow) : List TGestion × Nat :=
  extractGestionesLoop rows [] 0

/-- Sample raw row with a recognized outcome. -/
def rowValida : RawGestionRow :=
  { fecha_gestion := 20250110, hora_gestion := 930, ejecutivo := some "Ana",
    canal := "CALL", contactabilidad := "CONTACTO EFECTIVO", es_pdp := false,
    cod_luna := 111 }

/-- Sample raw row whose outcome code has no entry in the canonical
taxonomy. -/
def rowDesconocida : RawGestionRow :=
  { fecha_gestion := 20250110, hora_gestion := 931, ejecutivo := some "Ana",
    canal := "CALL", contactabilidad := "CODIGO_RARO", es_pdp := false,
    cod_luna := 222 }

/-- C2 counterexample: a batch of one valid record plus one record whose
outcome code is unknown to the canonical taxonomy yields 2 converted
records and 0 skips — not 1 converted record and 1 recorded skip — and
the unknown code is silently replaced by the canonical outcome
`NO_CONTACTO` (the SQL `CASE` default); no `UnhomologatedOutcomeError`
is raised (the repository's `HomologacionError` class is never raised by
any adapter). -/
theorem C2_counterexample :
    (extract_gestiones [rowValida, rowDesconocida]).1.length = 2
  ∧ (extract_gestiones [rowValida, rowDesconocida]).2 = 0
  ∧ (convertGestionRow rowDesconocida).tipificacion_homologada
      = TipificacionHomologada.NO_CONTACTO := by
  refine ⟨rfl, rfl, ?_⟩
  decide

/-- C2 as amended: an unknown outcome code never fails a record and never
records a skip — the record converts with a silently substituted default
canonical outcome (`NO_CONTACTO` from the SQL `CASE` fallback; a
non-member homologated name would likewise fall back to
`CONTACTO_EFECTIVO` in the enum lookup).  Every record of a batch is
converted independently, so a batch of N records yields N conversions
and 0 skips. -/
theorem C2_silent_default_substitution :
    (∀ s : String, TipificacionHomologada.fromName s = none →
        getattrTipificacion s = TipificacionHomologada.CONTACTO_EFECTIVO)
  ∧ (∀ row : RawGestionRow, row.es_pdp = false →
        ¬(row.contactabilidad = "CONTACTO EFECTIVO") →
        (convertGestionRow row).tipificacion_homologada
          = TipificacionHomologada.NO_CONTACTO)
  ∧ (∀ rows : List RawGestionRow,
        (extract_gestiones rows).1 = rows.map convertGestionRow
      ∧ (extract_gestiones rows).2 = 0) := by
  have hloop : ∀ (rows : List RawGestionRow) (acc : List TGestion) (skips : Nat),
      extractGestionesLoop rows acc skips
        = (acc ++ rows.map convertGestionRow, skips) := by
    intro rows
    induction rows with
    | nil => intro acc skips; simp [extractGestionesLoop]
    | cons row rest ih =>
      intro acc skips
      simp [extractGestionesLoop, convertGestionRowE, ih]
  refine ⟨?_, ?_, ?_⟩
  · intro s h
    simp [getattrTipificacion, h]
  · intro row hpdp hcon
    simp [convertGestionRow, sqlTipificacionCase, hpdp, hcon, getattrTipificacion,
      TipificacionHomologada.fromName]
  · intro rows
    constructor
    · simp [extract_gestiones, hloop]
    · simp [extract_gestiones, hloop]

/-- Concrete instantiation of `C2_silent_default_substitution`: a name
missing from the enum falls back to `CONTACTO_EFECTIVO`, and the unknown
raw code of `rowDesconocida` is replaced by `NO_CONTACTO`. -/
theorem C2_witness :
    getattrTipificacion "TIPO_INEXISTENTE" = TipificacionHomologada.CONTACTO_EFECTIVO
  ∧ (convertGestionRow rowDesconocida).tipificacion_homologada
      = TipificacionHomologada.NO_CONTACTO :=
  ⟨C2_silent_default_substitution.1 "TIPO_INEXISTENTE" (by decide),
   C2_silent_default_substitution.2.1 rowDesconocida rfl (by decide)⟩

/-! ### Generic keyed upsert — `INSERT ... ON CONFLICT (key) DO UPDATE` -/

/-- One keyed upsert into a table held as a list of rows: when a row with
the incoming record's key exists every such row is updated through
`merge`, otherwise a fresh row `toRow c` is appended. -/
def upsertBy {ρ σ κ : Type} [DecidableEq κ] (key : ρ → κ) (keyS : σ → κ)
    (toRow : σ → ρ) (merge : ρ → σ → ρ) (tbl : List ρ) (c : σ) : List ρ :=
  if tbl.any (fun x => key x = keyS c) then
    tbl.map (fun x => if key x = keyS c then merge x c else x)
  else tbl ++ [toRow c]

/-- `executemany` of a keyed upsert: sequential fold over the records. -/
def upsertAllBy {ρ σ κ : Type} [DecidableEq κ] (key : ρ → κ) (keyS : σ → κ)
    (toRow : σ → ρ) (merge : ρ → σ → ρ) (tbl : List ρ) (cs : List σ) : List ρ :=
  cs.foldl (upsertBy key keyS toRow merge) tbl

/-- A key occurs in a table. -/
def HasKey {ρ κ : Type} (key : ρ → κ) (tbl : List ρ) (k : κ) : Prop :=
  ∃ x ∈ tbl, key x = k

theorem hasKey_iff_any {ρ κ : Type} [DecidableEq κ] (key : ρ → κ)
    (tbl : List ρ) (k : κ) :
    (tbl.any fun x => key x = k) = true ↔ HasKey key tbl k := by
  simp [List.any_eq_true, HasKey]

theorem hasKey_upsertBy {ρ σ κ : Type} [DecidableEq κ] (key : ρ → κ)
    (keyS : σ → κ) (toRow : σ → ρ) (merge : ρ → σ → ρ)
    (hm : ∀ x c, key (merge x c) = key x) (ht : ∀ c, key (toRow c) = keyS c)
    (tbl : List ρ) (c : σ) (k : κ) :
    HasKey key (upsertBy key keyS toRow merge tbl c) k
      ↔ HasKey key tbl k ∨ keyS c = k := by
  unfold upsertBy
  split
  · rename_i hany
    constructor
    · rintro ⟨x, hx, hkx⟩
      rw [List.mem_map] at hx
      obtain ⟨y, hy, rfl⟩ := hx
      left
      refine ⟨y, hy, ?_⟩
      rw [← hkx]
      split
      · rw [hm]
      · rfl
    · rintro (⟨x, hx, hkx⟩ | hkc)
      · refine ⟨if key x = keyS c then merge x c else x, List.mem_map_of_mem _ hx, ?_⟩
        split
        · rw [hm]; exact hkx
        · exact hkx
      · obtain ⟨y, hy, hky⟩ := (hasKey_iff_any key tbl (keyS c)).mp hany
        refine ⟨if key y = keyS c then merge y c else y, List.mem_map_of_mem _ hy, ?_⟩
        rw [if_pos hky, hm, hky, hkc]
  · rename_i hany
    unfold HasKey
    constructor
    · rintro ⟨x, hx, hkx⟩
      rw [List.mem_append] at hx
      rcases hx with hx | hx
      · exact Or.inl ⟨x, hx, hkx⟩
      · right
        rw [List.mem_singleton] at hx
        subst hx
        rw [← hkx, ht]
    · rintro (⟨x, hx, hkx⟩ | hkc)
      · exact ⟨x, List.mem_append_left _ hx, hkx⟩
      · exact ⟨toRow c, List.mem_append_right _ (List.mem_singleton_self _), (ht c).trans hkc⟩

theorem length_upsertBy_of_hasKey {ρ σ κ : Type} [DecidableEq κ] (key : ρ → κ)
    (keyS : σ → κ) (toRow : σ → ρ) (merge : ρ → σ → ρ)
    (tbl : List ρ) (c : σ) (h : HasKey key tbl (keyS c)) :
    (upsertBy key keyS toRow merge tbl c).length = tbl.length := by
  unfold upsertBy
  rw [if_pos ((hasKey_iff_any key tbl (keyS c)).mpr h)]
  exact List.length_map _ _

theorem hasKey_upsertAllBy {ρ σ κ : Type} [DecidableEq κ] (key : ρ → κ)
    (keyS : σ → κ) (toRow : σ → ρ) (merge : ρ → σ → ρ)
    (hm : ∀ x c, key (merge x c) = key x) (ht : ∀ c, key (toRow c) = keyS c)
    (cs : List σ) (tbl : List ρ) (k : κ) :
    HasKey key (upsertAllBy key keyS toRow merge tbl cs) k
      ↔ HasKey key tbl k ∨ ∃ c ∈ cs, keyS c = k := by
  induction cs generalizing tbl with
  | nil => simp [upsertAllBy]
  | cons c rest ih =>
    have hstep : upsertAllBy key keyS toRow merge tbl (c :: rest)
        = upsertAllBy key keyS toRow merge (upsertBy key keyS toRow merge tbl c) rest := rfl
    rw [hstep, ih, hasKey_upsertBy key keyS toRow merge hm ht]
    constructor
    · rintro ((h | h) | ⟨c2, hc2, hk2⟩)
      · exact Or.inl h
      · exact Or.inr ⟨c, List.mem_cons_self _ _, h⟩
      · exact Or.inr ⟨c2, List.mem_cons_of_mem _ hc2, hk2⟩
    · rintro (h | ⟨c2, hc2, hk2⟩)
      · exact Or.inl (Or.inl h)
      · rw [List.mem_cons] at hc2
        rcases hc2 with rfl | hc2
        · exact Or.inl (Or.inr hk2)
        · exact Or.inr ⟨c2, hc2, hk2⟩

theorem length_upsertAllBy_of_hasKey {ρ σ κ : Type} [DecidableEq κ] (key : ρ → κ)
    (keyS : σ → κ) (toRow : σ → ρ) (merge : ρ → σ → ρ)
    (hm : ∀ x c, key (merge x c) = key x) (ht : ∀ c, key (toRow c) = keyS c)
    (cs : List σ) (tbl : List ρ) (h : ∀ c ∈ cs, HasKey key tbl (keyS c)) :
    (upsertAllBy key keyS toRow merge tbl cs).length = tbl.length := by
  induction cs generalizing tbl with
  | nil => rfl
  | cons c rest ih =>
    have hstep : upsertAllBy key keyS toRow merge tbl (c :: rest)
        = upsertAllBy key keyS toRow merge (upsertBy key keyS toRow merge tbl c) rest := rfl
    rw [hstep]
    have h1 : HasKey key tbl (keyS c) := h c (List.mem_cons_self _ _)
    have hrest : ∀ c2 ∈ rest, HasKey key (upsertBy key keyS toRow merge tbl c) (keyS c2) := by
      intro c2 hc2
      exact (hasKey_upsertBy key keyS toRow merge hm ht tbl c _).mpr
        (Or.inl (h c2 (List.mem_cons_of_mem _ hc2)))
    rw [ih _ hrest]
    exact length_upsertBy_of_hasKey key keyS toRow merge tbl c h1

/-! ### PostgreSQL datamart adapter —
src/infrastructure/adapters/postgresql/datamart_adapter.py -/

/-- `.value` of a `CanalContacto` member (enums.py lines 24-31; names and
values coincide).  The final catch-all arm covers the one remaining
member, the home-visit channel. -/
def CanalContacto.value : CanalContacto → String
  | CanalContacto.CALL => "CALL"
  | CanalContacto.VOICEBOT => "VOICEBOT"
  | CanalContacto.EMAIL => "EMAIL"
  | CanalContacto.SMS => "SMS"
  | CanalContacto.WHATSAPP => "WHATSAPP"
  | CanalContacto.CARTA => "CARTA"
  | CanalContacto.CALL_CENTER => "CALL_CENTER"
  | _ => "VISITA_DOMICILIO"

/-- `.value` of a `TipificacionHomologada` member (enums.py lines 110-130;
names and values coincide). -/
def TipificacionHomologada.value : TipificacionHomologada → String
  | TipificacionHomologada.CONTACTO_EFECTIVO => "CONTACTO_EFECTIVO"
  | TipificacionHomologada.COMPROMISO_PAGO => "COMPROMISO_PAGO"
  | TipificacionHomologada.PAGO_INMEDIATO => "PAGO_INMEDIATO"
  | TipificacionHomologada.ACUERDO_PAGO => "ACUERDO_PAGO"
  | TipificacionHomologada.NO_CONTACTO => "NO_CONTACTO"
  | TipificacionHomologada.NUMERO_ERRADO => "NUMERO_ERRADO"
  | TipificacionHomologada.TELEFONO_APAGADO => "TELEFONO_APAGADO"
  | TipificacionHomologada.BUZON_VOZ => "BUZON_VOZ"
  | TipificacionHomologada.NO_INTERESADO => "NO_INTERESADO"
  | TipificacionHomologada.SIN_CAPACIDAD_PAGO => "SIN_CAPACIDAD_PAGO"
  | TipificacionHomologada.SOLICITA_FACILIDADES => "SOLICITA_FACILIDADES"
  | TipificacionHomologada.DISPUTA_DEUDA => "DISPUTA_DEUDA"
  | TipificacionHomologada.FALLECIDO => "FALLECIDO"
  | TipificacionHomologada.CAMBIO_DATOS => "CAMBIO_DATOS"
  | TipificacionHomologada.RECLAMO_CLIENTE => "RECLAMO_CLIENTE"

/-- Row of the `dim_clientes` dimension table (datamart_adapter.py lines
99-111), `PRIMARY KEY (cod_luna)`; timestamps embedded as `Int`. -/
structure DimClienteRow where
  cod_luna : Int
  nombre : String
  documento : String
  servicio : String
  cartera : String
  deuda_total : Rat
  zona : String
  created_at : Int
  updated_at : Int
  deriving DecidableEq

/-- The cliente record handled by the Telefónica adapters, carrying exactly
the fields of the `Cliente(...)` call site (telefonica_adapter.py lines
175-183) that the datamart loader reads back (datamart_adapter.py lines
178-190).  Modelled from the spec like `TGestion`: the variant entity
class accepting these keywords is absent from the repository snapshot. -/
structure TCliente where
  cod_luna : Int
  nombre : String
  documento : String
  servicio : String
  cartera : String
  deuda_total : Rat
  zona : String
  deriving DecidableEq

/-- The `DO UPDATE SET` arm of the clientes upsert (datamart_adapter.py
lines 197-205): every column except the conflict key `cod_luna` and
`created_at` is overwritten; `updated_at` takes the load's `now`. -/
def mergeClienteRow (now : Int) (old : DimClienteRow) (c : TCliente) : DimClienteRow :=
  { old with
    nombre := c.nombre
    documento := c.documento
    servicio := c.servicio
    cartera := c.cartera
    deuda_total := c.deuda_total
    zona := c.zona
    updated_at := now }

/-- A freshly inserted clientes row (`created_at DEFAULT NOW()`). -/
def insertClienteRow (now : Int) (c : TCliente) : DimClienteRow :=
  { cod_luna := c.cod_luna, nombre := c.nombre, documento := c.documento,
    servicio := c.servicio, cartera := c.cartera, deuda_total := c.deuda_total,
    zona := c.zona, created_at := now, updated_at := now }

/-- `TelefonicaDatamartAdapter.load_clientes` (datamart_adapter.py lines
169-209): empty input returns 0 immediately; otherwise every record is
upserted keyed on `cod_luna` and the count of prepared records is
returned. -/
def load_clientes (now : Int) (tbl : List DimClienteRow) (clientes : List TCliente) :
    List DimClienteRow × Nat :=
  if clientes.isEmpty then (tbl, 0)
  else
    (upsertAllBy (fun r => r.cod_luna) (fun c => c.cod_luna) (insertClienteRow now)
      (mergeClienteRow now) tbl clientes,
     clientes.length)

/-- Row of the `fact_gestiones` fact table (datamart_adapter.py lines
76-96), `PRIMARY KEY (gestion_id)`. -/
structure FactGestionRow where
  gestion_id : String
  fecha_gestion : Int
  hora_gestion : Int
  cod_luna : Int
  ejecutivo : String
  canal : String
  contactabilidad : String
  tipificacion_homologada : String
  duracion_segundos : Int
  observaciones : String
  cliente_nombre : String
  servicio : String
  cartera : String
  zona : String
  deriving DecidableEq

/-- Preparation of one gestiones record (datamart_adapter.py lines 219-259):
the dim table is consulted by `cod_luna` (keys are compared through their
string form, as the loader keys its dict by `str(cod_luna)` and looks up
`gestion.cliente_documento`), and missing client info denormalizes to
`''`.  `int(gestion.cliente_documento)` is embedded as `String.toInt?`
with default 0; the adapter only produces decimal-string documents. -/
def gestionToFactRow (dim : List DimClienteRow) (g : TGestion) : FactGestionRow :=
  let info := dim.find? (fun r => toString r.cod_luna = g.cliente_documento)
  { gestion_id := g.gestion_id
    fecha_gestion := g.fecha_gestion
    hora_gestion := g.hora_gestion
    cod_luna := (g.cliente_documento.toInt?).getD 0
    ejecutivo := g.ejecutivo
    canal := CanalContacto.value g.canal
    contactabilidad := g.contactabilidad
    tipificacion_homologada := TipificacionHomologada.value g.tipificacion_homologada
    duracion_segundos := g.duracion_segundos
    observaciones := g.observaciones
    cliente_nombre := (info.map fun r => r.nombre).getD ""
    servicio := (info.map fun r => r.servicio).getD ""
    cartera := (info.map fun r => r.cartera).getD ""
    zona := (info.map fun r => r.zona).getD "" }

/-- The `DO UPDATE SET` arm of the gestiones upsert (datamart_adapter.py
lines 268-276): only contactability, homologated outcome, observations
and the denormalized client columns are overwritten. -/
def mergeGestionRow (old r : FactGestionRow) : FactGestionRow :=
  { old with
    contactabilidad := r.contactabilidad
    tipificacion_homologada := r.tipificacion_homologada
    observaciones := r.observaciones
    cliente_nombre := r.cliente_nombre
    servicio := r.servicio
    cartera := r.cartera
    zona := r.zona }

/-- `TelefonicaDatamartAdapter.load_gestiones` (datamart_adapter.py lines
211-280): empty input returns 0 immediately; otherwise records are
prepared with denormalized client data and upserted keyed on
`gestion_id`, returning `len(records)`. -/
def load_gestiones (dim : List DimClienteRow) (tbl : List FactGestionRow)
    (gestiones : List TGestion) : List FactGestionRow × Nat :=
  if gestiones.isEmpty then (tbl, 0)
  else
    let records := gestiones.map (gestionToFactRow dim)
    (upsertAllBy (fun r => r.gestion_id) (fun r => r.gestion_id) id mergeGestionRow
      tbl records,
     records.length)

/-- Row of the `daily_metrics` aggregate table (datamart_adapter.py lines
114-136), `PRIMARY KEY (fecha, ejecutivo, canal, servicio, cartera)`. -/
structure DailyMetricRow where
  fecha : Int
  ejecutivo : String
  canal : String
  servicio : String
  cartera : String
  total_gestiones : Nat
  contactos_efectivos : Nat
  gestiones_pdp : Nat
  clientes_gestionados : Nat
  tasa_contactabilidad : Rat
  tasa_pdp : Rat
  deriving DecidableEq

/-- The whole Telefónica datamart schema state. -/
structure Datamart where
  dim_clientes : List DimClienteRow
  fact_gestiones : List FactGestionRow
  daily_metrics : List DailyMetricRow
  deriving DecidableEq

/-- The empty datamart (freshly created schema). -/
def emptyDatamart : Datamart :=
  { dim_clientes := [], fact_gestiones := [], daily_metrics := [] }

/-- `ProcessDailyETLUseCase._load_data` (process_daily_etl.py lines 154-177)
acting on the datamart state: clientes are loaded first, then gestiones
are denormalized against the already-updated dim table and loaded;
returns the new state plus the two load counts. -/
def loadData (now : Int) (dm : Datamart) (clientes : List TCliente)
    (gestiones : List TGestion) : Datamart × Nat × Nat :=
  let resC := load_clientes now dm.dim_clientes clientes
  let resG := load_gestiones resC.1 dm.fact_gestiones gestiones
  ({ dm with dim_clientes := resC.1, fact_gestiones := resG.1 }, resC.2, resG.2)

theorem load_clientes_hasKey (now : Int) (tbl : List DimClienteRow)
    (cs : List TCliente) (c : TCliente) (hc : c ∈ cs) :
    HasKey (fun r => r.cod_luna) (load_clientes now tbl cs).1 c.cod_luna := by
  unfold load_clientes
  rw [if_neg (by simp [List.isEmpty_iff]; exact List.ne_nil_of_mem hc)]
  exact (hasKey_upsertAllBy (fun r : DimClienteRow => r.cod_luna)
    (fun c2 : TCliente => c2.cod_luna) (insertClienteRow now) (mergeClienteRow now)
    (fun x c2 => rfl) (fun c2 => rfl) cs tbl c.cod_luna).mpr (Or.inr ⟨c, hc, rfl⟩)

theorem load_clientes_length_idem (t1 t2 : Int) (tbl : List DimClienteRow)
    (cs : List TCliente) :
    (load_clientes t2 (load_clientes t1 tbl cs).1 cs).1.length
      = (load_clientes t1 tbl cs).1.length := by
  by_cases hcs : cs.isEmpty
  · simp [load_clientes, hcs]
  · have hkeys : ∀ c ∈ cs, HasKey (fun r => r.cod_luna)
        (load_clientes t1 tbl cs).1 c.cod_luna :=
      fun c hc => load_clientes_hasKey t1 tbl cs c hc
    unfold load_clientes
    rw [if_neg hcs]
    exact length_upsertAllBy_of_hasKey (fun r : DimClienteRow => r.cod_luna)
      (fun c2 : TCliente => c2.cod_luna) (insertClienteRow t2) (mergeClienteRow t2)
      (fun x c2 => rfl) (fun c2 => rfl) cs _ (fun c hc => hkeys c hc)

theorem load_gestiones_hasKey (dim : List DimClienteRow)
    (tbl : List FactGestionRow) (gs : List TGestion) (g : TGestion) (hg : g ∈ gs) :
    HasKey (fun r => r.gestion_id) (load_gestiones dim tbl gs).1 g.gestion_id := by
  unfold load_gestiones
  rw [if_neg (by simp [List.isEmpty_iff]; exact List.ne_nil_of_mem hg)]
  exact (hasKey_upsertAllBy (fun r : FactGestionRow => r.gestion_id)
    (fun r : FactGestionRow => r.gestion_id) id mergeGestionRow
    (fun x r => rfl) (fun r => rfl) (gs.map (gestionToFactRow dim)) tbl
    g.gestion_id).mpr
    (Or.inr ⟨gestionToFactRow dim g, List.mem_map_of_mem _ hg, rfl⟩)

theorem load_gestiones_length_idem (dim dim2 : List DimClienteRow)
    (tbl : List FactGestionRow) (gs : List TGestion) :
    (load_gestiones dim2 (load_gestiones dim tbl gs).1 gs).1.length
      = (load_gestiones dim tbl gs).1.length := by
  by_cases hgs : gs.isEmpty
  · simp [load_gestiones, hgs]
  · have hkeys : ∀ g ∈ gs, HasKey (fun r => r.gestion_id)
        (load_gestiones dim tbl gs).1 g.gestion_id :=
      fun g hg => load_gestiones_hasKey dim tbl gs g hg
    unfold load_gestiones
    rw [if_neg hgs]
    refine length_upsertAllBy_of_hasKey (fun r : FactGestionRow => r.gestion_id)
      (fun r : FactGestionRow => r.gestion_id) id mergeGestionRow
      (fun x r => rfl) (fun r => rfl) (gs.map (gestionToFactRow dim2)) _ ?_
    intro r hr
    rw [List.mem_map] at hr
    obtain ⟨g, hg, rfl⟩ := hr
    exact hkeys g hg

/-- C3: running the daily load twice with the same input leaves the same
row counts in the customer dimension table and the activity fact table as
running it once — customers are upserted keyed on `cod_luna` (the
Telefónica customer key, `PRIMARY KEY` of `dim_clientes`) and gestiones
on the deterministic composite `gestion_id`, so the second run only
updates rows already present. -/
theorem C3_load_idempotent_row_counts (dm : Datamart) (cs : List TCliente)
    (gs : List TGestion) (t1 t2 : Int) :
    ((loadData t2 (loadData t1 dm cs gs).1 cs gs).1.dim_clientes.length
      = (loadData t1 dm cs gs).1.dim_clientes.length)
  ∧ ((loadData t2 (loadData t1 dm cs gs).1 cs gs).1.fact_gestiones.length
      = (loadData t1 dm cs gs).1.fact_gestiones.length) := by
  constructor
  · simp only [loadData]
    exact load_clientes_length_idem t1 t2 dm.dim_clientes cs
  · simp only [loadData]
    exact load_gestiones_length_idem _ _ dm.fact_gestiones gs

/-! ### Daily aggregate refresh -/

theorem length_filter_add_length_filter_neg {ρ : Type} (p : ρ → Prop)
    [DecidablePred p] (l : List ρ) :
    (l.filter fun r => p r).length + (l.filter fun r => ¬ p r).length = l.length := by
  induction l with
  | nil => rfl
  | cons r rest ih =>
    by_cases h : p r <;> simp [List.filter_cons, h, ← ih] <;> omega

theorem filter_filter_neg_eq {ρ κ : Type} [DecidableEq κ] (f : ρ → κ) (k k2 : κ)
    (hne : k2 ≠ k) (l : List ρ) :
    ((l.filter fun r => ¬ f r = k).filter fun r => f r = k2)
      = l.filter fun r => f r = k2 := by
  induction l with
  | nil => rfl
  | cons r rest ih =>
    by_cases hrk : f r = k
    · have hrk2 : ¬ f r = k2 := fun h => hne (h.symm.trans hrk)
      rw [List.filter_cons, if_neg (by simp [hrk]), ih, List.filter_cons,
        if_neg (by simp [hrk2])]
    · rw [List.filter_cons, if_pos (by simp [hrk]), List.filter_cons,
        List.filter_cons, ih]

theorem sum_fiber_lengths_of_cover {ρ κ : Type} [DecidableEq κ] (f : ρ → κ) :
    ∀ ks : List κ, ks.Nodup → ∀ l : List ρ, (∀ r ∈ l, f r ∈ ks) →
      (ks.map fun k => (l.filter fun r => f r = k).length).sum = l.length := by
  intro ks
  induction ks with
  | nil =>
    intro _ l hcov
    cases l with
    | nil => rfl
    | cons r rest => exact absurd (hcov r (List.mem_cons_self _ _)) (List.not_mem_nil _)
  | cons k ks ih =>
    intro hnd l hcov
    rw [List.nodup_cons] at hnd
    obtain ⟨hknot, hndks⟩ := hnd
    have hcov2 : ∀ r ∈ l.filter (fun r => ¬ f r = k), f r ∈ ks := by
      intro r hr
      rw [List.mem_filter] at hr
      obtain ⟨hrl, hrk⟩ := hr
      have hmem := hcov r hrl
      rw [List.mem_cons] at hmem
      rcases hmem with h | h
      · exact absurd h (by simpa using hrk)
      · exact h
    rw [List.map_cons, List.sum_cons]
    have hmapeq :
        (ks.map fun k2 => (l.filter fun r => f r = k2).length)
          = ks.map fun k2 =>
              ((l.filter fun r => ¬ f r = k).filter fun r => f r = k2).length := by
      apply List.map_congr_left
      intro k2 hk2
      rw [filter_filter_neg_eq f k k2 (fun h => hknot (h ▸ hk2)) l]
    rw [hmapeq, ih hndks _ hcov2]
    exact length_filter_add_length_filter_neg (fun r => f r = k) l

theorem sum_fiber_lengths {ρ κ : Type} [DecidableEq κ] (f : ρ → κ) (l : List ρ) :
    (((l.map f).dedup).map fun k => (l.filter fun r => f r = k).length).sum
      = l.length :=
  sum_fiber_lengths_of_cover f (l.map f).dedup (List.nodup_dedup _) l
    (fun _ hr => List.mem_dedup.mpr (List.mem_map_of_mem f hr))

/-- Group key of the rollup `GROUP BY fecha_gestion, ejecutivo, canal,
servicio, cartera` (datamart_adapter.py line 320; `fecha_gestion` is fixed
to the refreshed date by the WHERE clause). -/
def gkeyFact (r : FactGestionRow) : String × String × String × String :=
  (r.ejecutivo, r.canal, r.servicio, r.cartera)

/-- `ROUND(x, 2)` on PostgreSQL numerics, embedded on `Rat`. -/
def round2 (q : Rat) : Rat := ((round (q * 100) : Int) : Rat) / 100

/-- One row of the recomputed rollup (datamart_adapter.py lines 299-317):
the aggregate columns of one `GROUP BY` fiber of the date's fact rows. -/
def mkDailyMetricRow (d : Int) (dayRows : List FactGestionRow)
    (k : String × String × String × String) : DailyMetricRow :=
  let grp := dayRows.filter fun r => gkeyFact r = k
  let total := grp.length
  let contactos := grp.countP fun r => r.contactabilidad = "CONTACTO EFECTIVO"
  let pdp := grp.countP fun r => r.tipificacion_homologada = "COMPROMISO_PAGO"
  { fecha := d
    ejecutivo := k.1
    canal := k.2.1
    servicio := k.2.2.1
    cartera := k.2.2.2
    total_gestiones := total
    contactos_efectivos := contactos
    gestiones_pdp := pdp
    clientes_gestionados := (grp.map fun r => r.cod_luna).dedup.length
    tasa_contactabilidad := round2 ((contactos : Rat) * 100 / (total : Rat))
    tasa_pdp := round2 ((pdp : Rat) * 100 / (contactos : Rat)) }

/-- `TelefonicaDatamartAdapter.refresh_daily_metrics` (datamart_adapter.py
lines 282-323): first DELETE every aggregate row for the date, then
INSERT the rollup recomputed wholesale from the date's fact rows.
PostgreSQL raises a division-by-zero error in the `tasa_pdp` expression
when some group has no `'CONTACTO EFECTIVO'` row; that error path is
embedded as `Except.error`. -/
def refresh_daily_metrics (dm : Datamart) (d : Int) : Except String Datamart :=
  let dayRows := dm.fact_gestiones.filter fun r => r.fecha_gestion = d
  let remaining := dm.daily_metrics.filter fun r => ¬ r.fecha = d
  let keys := (dayRows.map gkeyFact).dedup
  if keys.any (fun k =>
      (dayRows.filter fun r => gkeyFact r = k).countP
        (fun r => r.contactabilidad = "CONTACTO EFECTIVO") = 0) then
    Except.error "division by zero"
  else
    Except.ok
      { dm with daily_metrics := remaining ++ keys.map (mkDailyMetricRow d dayRows) }

/-- C4: when `refresh_daily_metrics` completes for a date, every previous
aggregate row for that date has been deleted and the rollup recomputed
wholesale, so the sum of the per-group `total_gestiones` over the date's
aggregate rows equals the number of fact rows for that date — whatever
the aggregate table held before, i.e. however many times upsert ran. -/
theorem C4_aggregate_consistency (dm dm2 : Datamart) (d : Int)
    (h : refresh_daily_metrics dm d = Except.ok dm2) :
    ((dm2.daily_metrics.filter fun r => r.fecha = d).map
        fun r => r.total_gestiones).sum
      = (dm.fact_gestiones.filter fun r => r.fecha_gestion = d).length := by
  simp only [refresh_daily_metrics] at h
  split at h
  · exact absurd h (by simp)
  · rw [Except.ok.injEq] at h
    subst h
    rw [List.filter_append]
    have h1 : ((dm.daily_metrics.filter fun r => ¬ r.fecha = d).filter
        fun r => r.fecha = d) = [] := by
      rw [List.filter_eq_nil_iff]
      intro r hr
      rw [List.mem_filter] at hr
      simpa using hr.2
    have h2 :
        ((((dm.fact_gestiones.filter fun r => r.fecha_gestion = d).map
            gkeyFact).dedup.map
          (mkDailyMetricRow d (dm.fact_gestiones.filter fun r => r.fecha_gestion = d))).filter
            fun r => r.fecha = d)
          = ((dm.fact_gestiones.filter fun r => r.fecha_gestion = d).map
              gkeyFact).dedup.map
              (mkDailyMetricRow d (dm.fact_gestiones.filter fun r => r.fecha_gestion = d)) := by
      rw [List.filter_eq_self]
      intro r hr
      rw [List.mem_map] at hr
      obtain ⟨k, hk, rfl⟩ := hr
      simp [mkDailyMetricRow]
    rw [h1, h2, List.nil_append, List.map_map]
    exact sum_fiber_lengths gkeyFact (dm.fact_gestiones.filter fun r => r.fecha_gestion = d)

/-- Sample fact row for date 5 with an effective contact. -/
def factW : FactGestionRow :=
  { gestion_id := "111_5_930", fecha_gestion := 5, hora_gestion := 930,
    cod_luna := 111, ejecutivo := "Ana", canal := "CALL",
    contactabilidad := "CONTACTO EFECTIVO", tipificacion_homologada := "COMPROMISO_PAGO",
    duracion_segundos := 0, observaciones := "", cliente_nombre := "Juan",
    servicio := "MOVIL", cartera := "Regular", zona := "LIMA" }

/-- Sample stale aggregate row for date 5 left by earlier runs. -/
def staleMetricW : DailyMetricRow :=
  { fecha := 5, ejecutivo := "Ana", canal := "CALL", servicio := "MOVIL",
    cartera := "Regular", total_gestiones := 99, contactos_efectivos := 99,
    gestiones_pdp := 99, clientes_gestionados := 99, tasa_contactabilidad := 0,
    tasa_pdp := 0 }

/-- Sample datamart with one fact row for date 5 and a stale aggregate. -/
def dmW : Datamart :=
  { dim_clientes := [], fact_gestiones := [factW], daily_metrics := [staleMetricW] }

/-- Concrete instantiation of `C4_aggregate_consistency`: refreshing `dmW`
for date 5 replaces the stale aggregate (total 99) and the per-group
totals sum to the single fact row. -/
theorem C4_witness :
    ((((refresh_daily_metrics dmW 5).toOption.getD emptyDatamart).daily_metrics.filter
        fun r => r.fecha = 5).map fun r => r.total_gestiones).sum
      = (dmW.fact_gestiones.filter fun r => r.fecha_gestion = 5).length :=
  C4_aggregate_consistency dmW _ 5 (by rfl)

/-! ### ETL orchestrator — src/application/use_cases/etl/process_daily_etl.py -/

/-- Externally observable port interactions of one `execute` run, in issue
order. -/
inductive EtlEvent where
  | testBigQuery
  | testPostgres
  | ensureSchema
  | extractData
  | upsertClientes (n : Nat)
  | upsertGestiones (n : Nat)
  | refreshMetrics
  deriving DecidableEq

def isUpsertClientesEvt : EtlEvent → Bool
  | EtlEvent.upsertClientes _ => true
  | _ => false

def isUpsertGestionesEvt : EtlEvent → Bool
  | EtlEvent.upsertGestiones _ => true
  | _ => false

def isConnTestEvt : EtlEvent → Bool
  | EtlEvent.testBigQuery => true
  | EtlEvent.testPostgres => true
  | _ => false

/-- `"status"` key of the result dict of `execute`. -/
inductive RunStatus where
  | success
  | error
  deriving DecidableEq

/-- The result dict of `ProcessDailyETLUseCase.execute`: the success summary
(lines 79-91, carrying the two load counts) or the error dict (lines
107-113, carrying only the message). -/
structure RunResult where
  status : RunStatus
  errorMsg : Option String
  clientes_loaded : Option Nat
  gestiones_loaded : Option Nat
  deriving DecidableEq

/-- Environment of one run: the outcome of every port interaction the
orchestrator awaits.  The two extraction queries may raise (`Except`);
the Bool flags say whether the corresponding database call raises. -/
structure EtlEnv where
  fecha : Int
  now : Int
  bigqueryOk : Bool
  postgresOk : Bool
  schemaOk : Bool
  clientesResult : Except String (List TCliente)
  gestionesResult : Except String (List TGestion)
  loadClientesOk : Bool
  loadGestionesOk : Bool
  refreshOk : Bool

/-- `TelefonicaBigQueryAdapter.extract_daily_data` (telefonica_adapter.py
lines 193-240): the two extractions run under
`asyncio.gather(..., return_exceptions=True)` and a failed extraction is
replaced by an empty list (lines 212-219); no exception propagates. -/
def extract_daily_data (env : EtlEnv) : List TGestion × List TCliente :=
  (match env.gestionesResult with
   | Except.ok gs => gs
   | Except.error _ => [],
   match env.clientesResult with
   | Except.ok cs => cs
   | Except.error _ => [])

/-- Full observable outcome of one run: the result dict, the event trace
and the final datamart state. -/
structure RunOutcome where
  result : RunResult
  events : List EtlEvent
  dm : Datamart
  deriving DecidableEq

/-- The error dict built by the `except` clause of `execute` (lines
101-113). -/
def errOutcome (msg : String) (events : List EtlEvent) (dm : Datamart) : RunOutcome :=
  { result := { status := RunStatus.error, errorMsg := some msg,
                clientes_loaded := none, gestiones_loaded := none },
    events := events, dm := dm }

/-- The DELETE statement of `refresh_daily_metrics` alone (datamart
adapter lines 287-291); each statement autocommits, so a failing INSERT
leaves the date's aggregate rows deleted. -/
def deleteDailyMetrics (dm : Datamart) (d : Int) : Datamart :=
  { dm with daily_metrics := dm.daily_metrics.filter fun r => ¬ r.fecha = d }

/-- `ProcessDailyETLUseCase.execute` (process_daily_etl.py lines 42-113) as
a pure function of the run environment and the starting datamart.  The
steps run in source order inside one `try`: `_test_connections` (BigQuery
first, then PostgreSQL, lines 115-129), `ensure_schema_exists`,
`_extract_data` (never raises, see `extract_daily_data`), `_load_data`
(clientes first, then gestiones, empty lists skipped, lines 154-177) and
`_refresh_metrics` (lines 179-185).  The first raising step routes to the
error dict with the events issued and the datamart state reached so far;
a load call that raises is embedded as leaving its table unchanged. -/
def executeEtl (env : EtlEnv) (dm0 : Datamart) : RunOutcome :=
  if env.bigqueryOk = false then
    errOutcome "BigQuery connection failed" [EtlEvent.testBigQuery] dm0
  else if env.postgresOk = false then
    errOutcome "PostgreSQL connection failed"
      [EtlEvent.testBigQuery, EtlEvent.testPostgres] dm0
  else if env.schemaOk = false then
    errOutcome "schema creation failed"
      [EtlEvent.testBigQuery, EtlEvent.testPostgres, EtlEvent.ensureSchema] dm0
  else
    let ev0 := [EtlEvent.testBigQuery, EtlEvent.testPostgres, EtlEvent.ensureSchema,
      EtlEvent.extractData]
    let ex := extract_daily_data env
    let gestiones := ex.1
    let clientes := ex.2
    if clientes.isEmpty = false ∧ env.loadClientesOk = false then
      errOutcome "load clientes failed"
        (ev0 ++ [EtlEvent.upsertClientes clientes.length]) dm0
    else
      let resC := load_clientes env.now dm0.dim_clientes clientes
      let evC := if clientes.isEmpty then ev0
        else ev0 ++ [EtlEvent.upsertClientes clientes.length]
      let dm1 := { dm0 with dim_clientes := resC.1 }
      if gestiones.isEmpty = false ∧ env.loadGestionesOk = false then
        errOutcome "load gestiones failed"
          (evC ++ [EtlEvent.upsertGestiones gestiones.length]) dm1
      else
        let resG := load_gestiones dm1.dim_clientes dm1.fact_gestiones gestiones
        let evG := if gestiones.isEmpty then evC
          else evC ++ [EtlEvent.upsertGestiones gestiones.length]
        let dm2 := { dm1 with fact_gestiones := resG.1 }
        let evR := evG ++ [EtlEvent.refreshMetrics]
        if env.refreshOk = false then
          errOutcome "refresh failed" evR dm2
        else
          match refresh_daily_metrics dm2 env.fecha with
          | Except.error e => errOutcome e evR (deleteDailyMetrics dm2 env.fecha)
          | Except.ok dm3 =>
            { result := { status := RunStatus.success, errorMsg := none,
                          clientes_loaded := some resC.2,
                          gestiones_loaded := some resG.2 },
              events := evR, dm := dm3 }

theorem refresh_preserves_tables (dm dm2 : Datamart) (d : Int)
    (h : refresh_daily_metrics dm d = Except.ok dm2) :
    dm2.dim_clientes = dm.dim_clientes ∧ dm2.fact_gestiones = dm.fact_gestiones := by
  simp only [refresh_daily_metrics] at h
  split at h
  · exact absurd h (by simp)
  · rw [Except.ok.injEq] at h
    subst h
    exact ⟨rfl, rfl⟩

/-- C8: when either connectivity check fails, the run goes directly to the
error state having issued only connection-test events, and the datamart
is untouched: no extraction, no load, no aggregate refresh. -/
theorem C8_connection_failure_fail_fast (env : EtlEnv) (dm0 : Datamart)
    (h : env.bigqueryOk = false ∨ env.postgresOk = false) :
    (executeEtl env dm0).result.status = RunStatus.error
  ∧ ((executeEtl env dm0).events.all fun e => isConnTestEvt e) = true
  ∧ (executeEtl env dm0).dm = dm0 := by
  unfold executeEtl
  by_cases h1 : env.bigqueryOk = false
  · rw [if_pos h1]
    exact ⟨rfl, rfl, rfl⟩
  · have h2 : env.postgresOk = false := h.resolve_left h1
    rw [if_neg h1, if_pos h2]
    exact ⟨rfl, rfl, rfl⟩

/-- Environment whose load-side connectivity check fails. -/
def envConnFail : EtlEnv :=
  { fecha := 5, now := 0, bigqueryOk := true, postgresOk := false, schemaOk := true,
    clientesResult := Except.ok [], gestionesResult := Except.ok [],
    loadClientesOk := true, loadGestionesOk := true, refreshOk := true }

/-- Concrete instantiation of `C8_connection_failure_fail_fast`: a failing
PostgreSQL check stops the run with only connection tests issued. -/
theorem C8_witness :
    (executeEtl envConnFail emptyDatamart).result.status = RunStatus.error
  ∧ ((executeEtl envConnFail emptyDatamart).events.all fun e => isConnTestEvt e) = true
  ∧ (executeEtl envConnFail emptyDatamart).dm = emptyDatamart :=
  C8_connection_failure_fail_fast envConnFail emptyDatamart (Or.inr rfl)

/-- Once a gestiones-upsert event has been issued, no clientes-upsert event
follows. -/
def clientesBeforeGestiones : List EtlEvent → Bool
  | [] => true
  | e :: rest =>
    if isUpsertGestionesEvt e then rest.all fun x => !isUpsertClientesEvt x
    else clientesBeforeGestiones rest

/-- C7: in every run, every customer upsert is issued before any activity
upsert: the event trace of `executeEtl` never shows a clientes upsert
after a gestiones upsert (the loading stage awaits the customer upsert
before issuing the activity upsert). -/
theorem C7_clientes_upserted_before_gestiones (env : EtlEnv) (dm0 : Datamart) :
    clientesBeforeGestiones (executeEtl env dm0).events = true := by
  simp only [executeEtl]
  repeat' split
  all_goals rfl

/-- Sample Telefónica cliente. -/
def clienteT1 : TCliente :=
  { cod_luna := 111, nombre := "Juan", documento := "12345678",
    servicio := "MOVIL", cartera := "Regular", deuda_total := 100, zona := "LIMA" }

/-- Environment in which the activity extraction raises while every other
port interaction succeeds, with one cliente extracted. -/
def envGestionesFallan : EtlEnv :=
  { fecha := 5, now := 0, bigqueryOk := true, postgresOk := true, schemaOk := true,
    clientesResult := Except.ok [clienteT1],
    gestionesResult := Except.error "SourceUnavailableError",
    loadClientesOk := true, loadGestionesOk := true, refreshOk := true }

/-- C5 counterexample: with the activity extraction failing and the customer
extraction returning one record, the run does NOT terminate in the
failed state — it completes with status success, upserts the surviving
customer extraction (a partial result) and reports it as loaded. -/
theorem C5_counterexample :
    (executeEtl envGestionesFallan emptyDatamart).result.status = RunStatus.success
  ∧ EtlEvent.upsertClientes 1 ∈ (executeEtl envGestionesFallan emptyDatamart).events
  ∧ (executeEtl envGestionesFallan emptyDatamart).result.clientes_loaded = some 1 := by
  refine ⟨rfl, ?_, rfl⟩
  decide

/-- C5 as amended: a failed extraction is swallowed by
`extract_daily_data` (`asyncio.gather(..., return_exceptions=True)`
replaces the exception with an empty list), so the run proceeds past
extraction, loads the surviving customer extraction, issues no activity
upsert, and keeps the loaded customer rows in the final state; the run
is not terminated by the extraction failure. -/
theorem C5_extraction_failure_not_fatal (env : EtlEnv) (dm0 : Datamart)
    (cs : List TCliente) (e : String)
    (h1 : env.bigqueryOk = true) (h2 : env.postgresOk = true)
    (h3 : env.schemaOk = true)
    (h4 : env.clientesResult = Except.ok cs)
    (h5 : env.gestionesResult = Except.error e)
    (h6 : env.loadClientesOk = true)
    (hcs : cs.isEmpty = false) :
    EtlEvent.extractData ∈ (executeEtl env dm0).events
  ∧ EtlEvent.upsertClientes cs.length ∈ (executeEtl env dm0).events
  ∧ ((executeEtl env dm0).events.all fun x => !isUpsertGestionesEvt x) = true
  ∧ (executeEtl env dm0).dm.dim_clientes
      = (load_clientes env.now dm0.dim_clientes cs).1 := by
  simp only [executeEtl, extract_daily_data, h1, h2, h3, h4, h5, h6, hcs]
  simp only [List.isEmpty_nil, Bool.true_eq_false, false_and, if_false,
    Bool.false_eq_true, and_false, if_true]
  split
  · refine ⟨by simp [errOutcome], by simp [errOutcome], ?_, by simp [errOutcome]⟩
    simp [errOutcome, isUpsertGestionesEvt]
  · split
    · refine ⟨by simp [errOutcome], by simp [errOutcome], ?_,
        by simp [errOutcome, deleteDailyMetrics]⟩
      simp [errOutcome, isUpsertGestionesEvt]
    · rename_i dm3 hok
      have hpres := refresh_preserves_tables _ dm3 env.fecha hok
      refine ⟨by simp, by simp, ?_, ?_⟩
      · simp [isUpsertGestionesEvt]
      · rw [hpres.1]

/-- Concrete instantiation of `C5_extraction_failure_not_fatal` at
`envGestionesFallan`. -/
theorem C5_witness :
    EtlEvent.extractData ∈ (executeEtl envGestionesFallan emptyDatamart).events
  ∧ EtlEvent.upsertClientes [clienteT1].length
      ∈ (executeEtl envGestionesFallan emptyDatamart).events
  ∧ ((executeEtl envGestionesFallan emptyDatamart).events.all
      fun x => !isUpsertGestionesEvt x) = true
  ∧ (executeEtl envGestionesFallan emptyDatamart).dm.dim_clientes
      = (load_clientes envGestionesFallan.now emptyDatamart.dim_clientes [clienteT1]).1 :=
  C5_extraction_failure_not_fatal envGestionesFallan emptyDatamart [clienteT1]
    "SourceUnavailableError" rfl rfl rfl rfl rfl rfl rfl

/-- Sample Telefónica gestion. -/
def gestionT1 : TGestion :=
  { gestion_id := "111_5_930", fecha_gestion := 5, hora_gestion := 930,
    cliente_documento := "111", ejecutivo := "Ana", canal := CanalContacto.CALL,
    contactabilidad := "CONTACTO EFECTIVO",
    tipificacion_original := "CONTACTO EFECTIVO",
    tipificacion_homologada := TipificacionHomologada.CONTACTO_EFECTIVO,
    duracion_segundos := 0, observaciones := "" }

/-- Environment in which everything succeeds except the aggregate
refresh. -/
def envRefreshFalla : EtlEnv :=
  { fecha := 5, now := 0, bigqueryOk := true, postgresOk := true, schemaOk := true,
    clientesResult := Except.ok [clienteT1],
    gestionesResult := Except.ok [gestionT1],
    loadClientesOk := true, loadGestionesOk := true, refreshOk := false }

/-- C6 counterexample: when loading completed successfully and the
aggregate refresh then fails, the run does NOT still classify the load as
successful — `execute` returns the error dict (status error, no load
counts), converting the whole run into a failure. -/
theorem C6_counterexample :
    (executeEtl envRefreshFalla emptyDatamart).result.status = RunStatus.error
  ∧ (executeEtl envRefreshFalla emptyDatamart).result.clientes_loaded = none
  ∧ (executeEtl envRefreshFalla emptyDatamart).result.gestiones_loaded = none :=
  ⟨rfl, rfl, rfl⟩

/-- C6 as amended: a refresh failure after a successful load leaves the
loaded rows in place — the dimension and fact tables of the final state
are exactly the loaded tables, nothing is rolled back, and the refresh
attempt is reported in the trace — but the run's result is the error
dict: status error with no load counts, not a success that merely
reports the refresh failure. -/
theorem C6_refresh_failure_reported_as_run_error (env : EtlEnv) (dm0 : Datamart)
    (cs : List TCliente) (gs : List TGestion)
    (h1 : env.bigqueryOk = true) (h2 : env.postgresOk = true)
    (h3 : env.schemaOk = true)
    (h4 : env.clientesResult = Except.ok cs)
    (h5 : env.gestionesResult = Except.ok gs)
    (h6 : env.loadClientesOk = true) (h7 : env.loadGestionesOk = true)
    (h8 : env.refreshOk = false) :
    (executeEtl env dm0).result.status = RunStatus.error
  ∧ (executeEtl env dm0).result.clientes_loaded = none
  ∧ (executeEtl env dm0).result.gestiones_loaded = none
  ∧ EtlEvent.refreshMetrics ∈ (executeEtl env dm0).events
  ∧ (executeEtl env dm0).dm.dim_clientes
      = (load_clientes env.now dm0.dim_clientes cs).1
  ∧ (executeEtl env dm0).dm.fact_gestiones
      = (load_gestiones (load_clientes env.now dm0.dim_clientes cs).1
          dm0.fact_gestiones gs).1 := by
  simp only [executeEtl, extract_daily_data, h1, h2, h3, h4, h5, h6, h7, h8]
  simp only [Bool.true_eq_false, and_false, if_false, Bool.false_eq_true,
    if_true, and_true]
  refine ⟨by simp [errOutcome], by simp [errOutcome], by simp [errOutcome],
    ?_, by simp [errOutcome], by simp [errOutcome]⟩
  simp [errOutcome]

/-- Concrete instantiation of `C6_refresh_failure_reported_as_run_error` at
`envRefreshFalla`. -/
theorem C6_witness :
    (executeEtl envRefreshFalla emptyDatamart).result.status = RunStatus.error
  ∧ (executeEtl envRefreshFalla emptyDatamart).result.clientes_loaded = none
  ∧ (executeEtl envRefreshFalla emptyDatamart).result.gestiones_loaded = none
  ∧ EtlEvent.refreshMetrics ∈ (executeEtl envRefreshFalla emptyDatamart).events
  ∧ (executeEtl envRefreshFalla emptyDatamart).dm.dim_clientes
      = (load_clientes envRefreshFalla.now emptyDatamart.dim_clientes [clienteT1]).1
  ∧ (executeEtl envRefreshFalla emptyDatamart).dm.fact_gestiones
      = (load_gestiones (load_clientes envRefreshFalla.now emptyDatamart.dim_clientes
          [clienteT1]).1 emptyDatamart.fact_gestiones [gestionT1]).1 :=
  C6_refresh_failure_reported_as_run_error envRefreshFalla emptyDatamart
    [clienteT1] [gestionT1] rfl rfl rfl rfl rfl rfl rfl rfl
